import Mathlib

/-!
# Verification of the artifact materialization subsystem

Shallow embedding of `llmstack/processors/providers/promptly/file_operations.py`:
the data-URI codec, mime-type inference, archive building with directory-scope
filtering, and the `FileOperationsProcessor.process` dispatcher, together with
theorems settling the specification's claims about them.

Bytes are modelled as `List Nat` with entries below 256 where it matters.
Side effects (remote conversion calls, asset publishes, output-stream writes)
are modelled as an explicit trace that `process` returns.
-/

namespace FileOps

/-! ## Base64 (models Python's `base64.b64encode` / `base64.b64decode`,
standard-library code outside this repository, per the spec's "payload decodes
cleanly under the declared encoding"). -/

def b64Alphabet : List Char :=
  "ABCDEFGHIJKLMNOPQRSTUVWXYZabcdefghijklmnopqrstuvwxyz0123456789+/".toList

def b64Char (n : Nat) : Char := b64Alphabet.getD n 'A'

def b64CharVal (c : Char) : Option Nat :=
  b64Alphabet.indexOf? c

/-- Standard base64 encoding of a byte list, three bytes at a time, with
`=` padding. -/
def b64EncodeChunks : List Nat → List Char
  | [] => []
  | [a] => [b64Char (a / 4), b64Char (a % 4 * 16), '=', '=']
  | [a, b] => [b64Char (a / 4), b64Char (a % 4 * 16 + b / 16), b64Char (b % 16 * 4), '=']
  | a :: b :: c :: rest =>
      b64Char (a / 4) :: b64Char (a % 4 * 16 + b / 16) ::
      b64Char (b % 16 * 4 + c / 64) :: b64Char (c % 64) :: b64EncodeChunks rest

def base64Encode (data : List Nat) : String := ⟨b64EncodeChunks data⟩

/-- Standard base64 decoding, four characters at a time; `none` on any
malformed input. -/
def b64DecodeChunks : List Char → Option (List Nat)
  | [] => some []
  | c1 :: c2 :: c3 :: c4 :: rest =>
      match b64CharVal c1, b64CharVal c2 with
      | some v1, some v2 =>
          if c3 = '=' then
            if c4 = '=' ∧ rest = [] then some [v1 * 4 + v2 / 16] else none
          else
            match b64CharVal c3 with
            | some v3 =>
                if c4 = '=' then
                  if rest = [] then some [v1 * 4 + v2 / 16, v2 % 16 * 16 + v3 / 4] else none
                else
                  match b64CharVal c4 with
                  | some v4 =>
                      match b64DecodeChunks rest with
                      | some bs =>
                          some ((v1 * 4 + v2 / 16) :: (v2 % 16 * 16 + v3 / 4) ::
                                (v3 % 4 * 64 + v4) :: bs)
                      | none => none
                  | none => none
            | none => none
      | _, _ => none
  | _ => none

def base64Decode (s : String) : Option (List Nat) := b64DecodeChunks s.toList

/-! ## Python value rendering

`create_data_uri` interpolates its `data` argument into an f-string when
`base64_encode` is false.  All call sites in the source pass `bytes`, whose
Python string rendering is the `b'...'` repr; we model that rendering. -/

def hexDigitChar (n : Nat) : Char := "0123456789abcdef".toList.getD n '0'

def hexByte (b : Nat) : String := ⟨[hexDigitChar (b / 16 % 16), hexDigitChar (b % 16)]⟩

/-- How Python escapes one byte inside a bytes repr quoted by `quote`. -/
def pyByteEscape (quote : Char) (b : Nat) : String :=
  if b = 92 then "\\\\"
  else if b = quote.toNat then "\\" ++ String.singleton quote
  else if b = 9 then "\\t"
  else if b = 10 then "\\n"
  else if b = 13 then "\\r"
  else if 32 ≤ b ∧ b < 127 then String.singleton (Char.ofNat b)
  else "\\x" ++ hexByte b

/-- Python's `str()` of a bytes object: the `b'...'` repr (double quotes are
used when the bytes contain a single quote but no double quote). -/
def pyBytesRepr (bs : List Nat) : String :=
  let quote : Char := if bs.contains 39 ∧ ¬ bs.contains 34 then '"' else '\''
  "b" ++ String.singleton quote ++
    bs.foldr (fun b acc => pyByteEscape quote b ++ acc) (String.singleton quote)

/-- UTF-8 encoding of one character, models Python `str.encode("utf-8")`. -/
def utf8EncodeChar (c : Char) : List Nat :=
  let n := c.toNat
  if n < 0x80 then [n]
  else if n < 0x800 then [0xC0 + n / 64, 0x80 + n % 64]
  else if n < 0x10000 then [0xE0 + n / 4096, 0x80 + n / 64 % 64, 0x80 + n % 64]
  else [0xF0 + n / 262144, 0x80 + n / 4096 % 64, 0x80 + n / 64 % 64, 0x80 + n % 64]

def utf8Encode (s : String) : List Nat :=
  s.toList.foldr (fun c acc => utf8EncodeChar c ++ acc) []

/-- Split a character list at every occurrence of `sep` (Python
`str.split` with a one-character separator). -/
def splitSegs (sep : Char) : List Char → List (List Char)
  | [] => [[]]
  | c :: cs =>
      match splitSegs sep cs with
      | [] => [[c]]
      | r :: rs => if c = sep then [] :: r :: rs else (c :: r) :: rs

/-- Python `s.split(sep)[-1]`: `split` always returns a non-empty list. -/
def pySplitLast (sep : Char) (s : String) : String :=
  ⟨(splitSegs sep s.toList).getLastD []⟩

def isPrefixList : List Char → List Char → Bool
  | [], _ => true
  | _ :: _, [] => false
  | a :: as, b :: bs => a == b && isPrefixList as bs

/-- Python `s.startswith(p)`. -/
def pyStartswith (s p : String) : Bool := isPrefixList p.toList s.toList

/-- Python `s.replace(c, d)` for one-character pattern and replacement. -/
def pyReplaceChar (c d : Char) (s : String) : String :=
  ⟨s.toList.map (fun x => if x = c then d else x)⟩

/-- Python truthiness of an `Optional[str]` value: `None` and `""` are falsy. -/
def pyTruthy : Option String → Bool
  | none => false
  | some s => s ≠ ""

/-- Python `x or dflt` on an `Optional[str]`. -/
def pyOr (x : Option String) (dflt : String) : String :=
  match x with
  | some s => if s = "" then dflt else s
  | none => dflt

/-- Python f-string rendering of an `Optional[str]`: `str(None) = "None"`. -/
def pyStrOfOpt : Option String → String
  | none => "None"
  | some s => s

/-! ## `file_operations.py` definitions -/

/-- `_mime_type_from_file_ext` from the source, line for line. -/
def mime_type_from_file_ext (ext : String) : String :=
  if ext = "txt" then "text/plain"
  else if ext = "html" then "text/html"
  else if ext = "css" then "text/css"
  else if ext = "js" then "application/javascript"
  else if ext = "json" then "application/json"
  else if ext = "xml" then "application/xml"
  else if ext = "csv" then "text/csv"
  else if ext = "tsv" then "text/tab-separated-values"
  else if ext = "md" then "text/markdown"
  else "application/octet-stream"

structure FileOperationsInput where
  content : String := ""
  filename : Option String := none
  directory : Option String := none
  archive : Bool := false
  mimetype : Option String := none
  export_as : Option String := none
deriving DecidableEq

/-- The `validate_input` root validator: when `mimetype` is falsy and
`filename` is truthy, infer the mimetype from `filename.split(".")[-1]`. -/
def validate_input (values : FileOperationsInput) : FileOperationsInput :=
  if pyTruthy values.mimetype then values
  else
    match values.filename with
    | some f =>
        if f ≠ "" then
          { values with
            mimetype := some (mime_type_from_file_ext (pySplitLast '.' f)) }
        else values
    | none => values

/-- `create_data_uri` from the source: base64-encode the payload when asked,
then assemble `data:{mime}[;name={filename}][;base64],{payload}`.  The
untouched payload of the non-base64 branch is a bytes object, rendered by the
f-string as its Python repr. -/
def create_data_uri (data : List Nat) (mime_type : String) (base64_encode : Bool)
    (filename : Option String) : String :=
  let payload : String := if base64_encode then base64Encode data else pyBytesRepr data
  let uri1 := "data:" ++ mime_type
  let uri2 := uri1 ++ (match filename with
    | some f => if f ≠ "" then ";name=" ++ f else ""
    | none => "")
  let uri3 := uri2 ++ (if base64_encode then ";base64" else "")
  uri3 ++ "," ++ payload

structure FileOperationsOutput where
  directory : String
  filename : String
  objref : Option String := none
  archive : Bool := false
  text : String := ""
deriving DecidableEq

/-! ## Data-URI parsing (spec-modelled) -/

def splitAtFirst (sep : Char) : List Char → Option (List Char × List Char)
  | [] => none
  | c :: cs =>
      if c = sep then some ([], cs)
      else
        match splitAtFirst sep cs with
        | some p => some (c :: p.1, p.2)
        | none => none

/-- Header options after the mime type: optionally `name={filename}`, then
optionally `base64`, per the spec's grammar. -/
def parseUriOpts : List (List Char) → Option (Option String × Bool)
  | [] => some (none, false)
  | [o] =>
      if o = "base64".toList then some (none, true)
      else if o.take 5 = "name=".toList then some (some ⟨o.drop 5⟩, false)
      else none
  | [o1, o2] =>
      if o1.take 5 = "name=".toList ∧ o2 = "base64".toList then
        some (some ⟨o1.drop 5⟩, true)
      else none
  | _ => none

/-- Modelled from the spec: `validate_parse_data_uri` lives in
`llmstack.common.utils.utils`, outside the reviewed sources.  Per spec §4.1 the
decoder accepts `data:{mimeType}[;name={filename}][;base64],{payload}` and
fails when the scheme prefix is missing, the comma separator is absent, or the
payload fails base64 decoding when the base64 segment is present; it returns
the mime type, the optional filename, and the raw payload bytes. -/
def parse_data_uri (uri : String) : Option (String × Option String × List Nat) :=
  if uri.toList.take 5 = "data:".toList then
    match splitAtFirst ',' (uri.toList.drop 5) with
    | none => none
    | some (header, payload) =>
        match splitSegs ';' header with
        | [] => none
        | mime :: opts =>
            match parseUriOpts opts with
            | none => none
            | some (fname, isB64) =>
                if isB64 then
                  match b64DecodeChunks payload with
                  | some bytes => some (⟨mime⟩, fname, bytes)
                  | none => none
                else some (⟨mime⟩, fname, utf8Encode ⟨payload⟩)
  else none

/-- Payload bytes of a parse result, defaulting to `[]`. -/
def uriPayloadBytes : Option (String × Option String × List Nat) → List Nat
  | some (_, _, b) => b
  | none => []

/-! ## Archive building (`_create_archive`) -/

/-- One element of the session-asset listing passed to `_create_archive`. -/
structure SessionAsset where
  name : String
  data_uri : String
deriving DecidableEq

inductive ProcError where
  /-- `validate_parse_data_uri` raised on a corrupt data URI. -/
  | malformedDataUri
  /-- `raise ValueError(f"Unsupported export_as type: ...")`, line 253. -/
  | unsupportedExportAs
  /-- `raise ValueError("Failed to create data uri")`, line 277. -/
  | failedDataUri
  /-- `response.files[0]` on a response with no files, line 248. -/
  | indexError
deriving DecidableEq

/-- The loop of `_create_archive` lines 137-152: skip entries outside the
directory scope, parse each kept entry's data URI and write its decoded bytes
at the entry's relative path inside the workspace.  The result is the list of
(path, bytes) files the workspace holds when the loop finishes; a parse
failure aborts the build. -/
def writeArchiveEntries (directory : String) :
    List SessionAsset → Except ProcError (List (String × List Nat))
  | [] => .ok []
  | f :: rest =>
      if directory ≠ "" ∧ ¬ (pyStartswith f.name directory) then
        writeArchiveEntries directory rest
      else
        match parse_data_uri f.data_uri with
        | none => .error .malformedDataUri
        | some (_, _, bytes) =>
            match writeArchiveEntries directory rest with
            | .ok ws => .ok ((f.name, bytes) :: ws)
            | .error e => .error e

/-- `_create_archive` from the source.  The zip packaging itself is done by
the standard library (`shutil.make_archive`, outside this repository); the
archive is represented by the files placed in the workspace, in write order,
plus the archive name `f"{temp_archive_dir}.zip".replace("/", "_")`. -/
def create_archive (files : List SessionAsset) (directory : String)
    (temp_archive_dir : String) :
    Except ProcError (List (String × List Nat) × String) :=
  let archive_name := pyReplaceChar '/' '_' (temp_archive_dir ++ ".zip")
  match writeArchiveEntries directory files with
  | .ok entries => .ok (entries, archive_name)
  | .error e => .error e

/-! ## The `process` dispatcher -/

/-- The `create` message of the `WordProcessorRequest` sent to the rendering
service (its `mime_type` field is the constant `ContentMimeType.PDF`). -/
structure WordProcessorFileCreate where
  filename : String
  html : String
deriving DecidableEq

/-- An asset handed to `_upload_asset_from_url`: either a data-URI string, or
the zip archive of the given workspace files under the given name. -/
inductive PublishedAsset where
  | uri (data_uri : String)
  | archiveZip (entries : List (String × List Nat)) (archive_name : String)
deriving DecidableEq

/-- The side effects one `process` call performs, in order of occurrence. -/
structure Trace where
  conversion_requests : List WordProcessorFileCreate := []
  published : List PublishedAsset := []
  written : List FileOperationsOutput := []
deriving DecidableEq

structure ProcResult where
  trace : Trace
  error : Option ProcError
deriving DecidableEq

/-- External collaborators of one `process` call: the session-asset listing
(`none` models a falsy result or one without an `"assets"` key), the
conversion response stream (each response is its list of files' bytes), the
stream of `uuid.uuid4()` strings in call order, the temporary directory name,
and the reference the asset store returns on upload. -/
structure ProcessEnv where
  session_assets : Option (List SessionAsset)
  conversion_responses : List (List (List Nat))
  uuid_supply : Nat → String
  temp_archive_dir : String
  upload_ref : String

/-- The response loop, lines 247-251: each iteration takes `files[0].data` of
the current response and overwrites `data_uri` with its encoding. -/
def conversionLoop (req_filename : String) :
    List (List (List Nat)) → Option String → Except ProcError (Option String)
  | [], acc => .ok acc
  | files :: rest, _ =>
      match files.head? with
      | none => .error .indexError
      | some data =>
          conversionLoop req_filename rest
            (some (create_data_uri data "application/pdf" true (some req_filename)))

/-- `FileOperationsProcessor.process`, lines 195-281, as a function from the
(already validated) input and the external environment to the trace of side
effects and the exception it raises, if any. -/
def process (inp : FileOperationsInput) (env : ProcessEnv) : ProcResult :=
  let content := inp.content
  let filename := pyOr inp.filename (env.uuid_supply 0)
  let directory := pyOr inp.directory ""
  let archive := inp.archive
  let noFilesResult : ProcResult :=
    { trace := { written := [{ directory := directory, objref := none,
                               filename := filename, archive := true,
                               text := "No files found to create an archive" }] },
      error := none }
  if content = "" ∧ archive = true then
    match env.session_assets with
    | some assets =>
        if assets.length ≠ 0 then
          match create_archive assets directory env.temp_archive_dir with
          | .ok (entries, archive_name) =>
              { trace := { published := [.archiveZip entries archive_name],
                           written := [{ directory := "", filename := archive_name,
                                         objref := some env.upload_ref, archive := true,
                                         text := "Archive created with contents from directory" }] },
                error := none }
          | .error e => { trace := {}, error := some e }
        else noFilesResult
    | none => noFilesResult
  else if content ≠ "" ∧ archive = false then
    if pyTruthy inp.export_as then
      if inp.export_as = some "pdf" then
        let req_filename := pyOr inp.filename (env.uuid_supply 1 ++ ".pdf")
        let req : WordProcessorFileCreate := { filename := req_filename, html := content }
        match conversionLoop req_filename env.conversion_responses none with
        | .error e => { trace := { conversion_requests := [req] }, error := some e }
        | .ok none => { trace := { conversion_requests := [req] },
                        error := some .failedDataUri }
        | .ok (some data_uri) =>
            { trace := { conversion_requests := [req],
                         published := [.uri data_uri],
                         written := [{ directory := directory, filename := filename,
                                       objref := some env.upload_ref, archive := false,
                                       text := content }] },
              error := none }
      else { trace := {}, error := some .unsupportedExportAs }
    else
      let full_file_path := if directory ≠ "" then directory ++ "/" ++ filename else filename
      let data_uri := create_data_uri (utf8Encode content) (pyStrOfOpt inp.mimetype)
        true (some full_file_path)
      { trace := { published := [.uri data_uri],
                   written := [{ directory := directory, filename := filename,
                                 objref := some env.upload_ref, archive := false,
                                 text := content }] },
        error := none }
  else
    { trace := {}, error := none }

/-- End-to-end run: pydantic applies the root validator when the input model
is constructed, then `process` runs on the validated input. -/
def runFileOperations (inp : FileOperationsInput) (env : ProcessEnv) : ProcResult :=
  process (validate_input inp) env

/-! ## Concrete sample inputs and environments -/

def sampleEnv : ProcessEnv :=
  { session_assets := none,
    conversion_responses := [],
    uuid_supply := fun _ => "00000000-0000-4000-8000-000000000000",
    temp_archive_dir := "/tmp/tmpabc",
    upload_ref := "objref-1" }

/-- One session asset whose name lies outside the `"docs"` scope. -/
def scopedAssetsEnv : ProcessEnv :=
  { session_assets :=
      some [{ name := "other/x.txt", data_uri := "data:text/plain;name=x.txt;base64,aGk=" }],
    conversion_responses := [],
    uuid_supply := fun _ => "00000000-0000-4000-8000-000000000000",
    temp_archive_dir := "/tmp/tmpabc",
    upload_ref := "objref-1" }

/-- A conversion stream with two response messages carrying different bytes. -/
def twoResponseEnv : ProcessEnv :=
  { session_assets := none,
    conversion_responses := [[[1]], [[2]]],
    uuid_supply := fun _ => "00000000-0000-4000-8000-000000000000",
    temp_archive_dir := "/tmp/tmpabc",
    upload_ref := "objref-1" }

/-- A conversion stream with a single one-file response. -/
def oneResponseEnv : ProcessEnv :=
  { session_assets := none,
    conversion_responses := [[[0]]],
    uuid_supply := fun _ => "00000000-0000-4000-8000-000000000000",
    temp_archive_dir := "/tmp/tmpabc",
    upload_ref := "objref-1" }

def bothSetInput : FileOperationsInput :=
  { content := "x", archive := true }

def scopedArchiveInput : FileOperationsInput :=
  { content := "", archive := true, directory := some "docs" }

def pdfExportInput : FileOperationsInput :=
  { content := "<h1>Hi</h1>", filename := some "out.pdf", export_as := some "pdf" }

def emptyExportAsInput : FileOperationsInput :=
  { content := "hello", filename := some "a.txt", mimetype := some "text/plain",
    export_as := some "" }

def docxExportInput : FileOperationsInput :=
  { content := "hello", filename := some "a.txt", export_as := some "docx" }

def bareContentInput : FileOperationsInput :=
  { content := "hi" }

def archiveDemoFiles : List SessionAsset :=
  [{ name := "docs/readme.md", data_uri := "data:text/markdown;name=readme.md;base64,aGk=" },
   { name := "other/x.txt", data_uri := "data:text/plain;name=x.txt;base64,aGk=" }]

def pdfNoNameInput : FileOperationsInput :=
  { content := "<p>x</p>", export_as := some "pdf" }

/-! ## Base64 lemmas -/

theorem b64CharVal_b64Char : ∀ n : Fin 64, b64CharVal (b64Char n.1) = some n.1 := by
  decide

theorem b64Char_ne_eq : ∀ n : Fin 64, b64Char n.1 ≠ '=' := by
  decide

theorem b64CharVal_b64Char_of_lt {n : Nat} (h : n < 64) :
    b64CharVal (b64Char n) = some n :=
  b64CharVal_b64Char ⟨n, h⟩

theorem b64Char_ne_eq_of_lt {n : Nat} (h : n < 64) : b64Char n ≠ '=' :=
  b64Char_ne_eq ⟨n, h⟩

/-- Base64 round trip: decoding the encoding of any byte list recovers it. -/
theorem b64_roundtrip : ∀ data : List Nat, (∀ b ∈ data, b < 256) →
    b64DecodeChunks (b64EncodeChunks data) = some data := by
  intro data
  induction data using b64EncodeChunks.induct with
  | case1 =>
      intro _
      simp [b64EncodeChunks, b64DecodeChunks]
  | case2 a =>
      intro hb
      have ha : a < 256 := hb a (by simp)
      have h1 : a / 4 < 64 := by omega
      have h2 : a % 4 * 16 < 64 := by omega
      simp [b64EncodeChunks, b64DecodeChunks,
        b64CharVal_b64Char_of_lt h1, b64CharVal_b64Char_of_lt h2]
      omega
  | case3 a b =>
      intro hb
      have ha : a < 256 := hb a (by simp)
      have hb' : b < 256 := hb b (by simp)
      have h1 : a / 4 < 64 := by omega
      have h2 : a % 4 * 16 + b / 16 < 64 := by omega
      have h3 : b % 16 * 4 < 64 := by omega
      simp [b64EncodeChunks, b64DecodeChunks,
        b64CharVal_b64Char_of_lt h1, b64CharVal_b64Char_of_lt h2,
        b64CharVal_b64Char_of_lt h3, b64Char_ne_eq_of_lt h3]
      omega
  | case4 a b c rest ih =>
      intro hb
      have ha : a < 256 := hb a (by simp)
      have hb' : b < 256 := hb b (by simp)
      have hc : c < 256 := hb c (by simp)
      have hrest : ∀ x ∈ rest, x < 256 := fun x hx => hb x (by simp [hx])
      have h1 : a / 4 < 64 := by omega
      have h2 : a % 4 * 16 + b / 16 < 64 := by omega
      have h3 : b % 16 * 4 + c / 64 < 64 := by omega
      have h4 : c % 64 < 64 := by omega
      simp [b64EncodeChunks, b64DecodeChunks,
        b64CharVal_b64Char_of_lt h1, b64CharVal_b64Char_of_lt h2,
        b64CharVal_b64Char_of_lt h3, b64CharVal_b64Char_of_lt h4,
        b64Char_ne_eq_of_lt h3, b64Char_ne_eq_of_lt h4, ih hrest]
      omega

/-! ## Splitting lemmas -/

theorem toList_append (a b : String) : (a ++ b).toList = a.toList ++ b.toList :=
  String.data_append a b

theorem mk_toList (s : String) : String.mk s.toList = s := rfl

theorem splitAtFirst_append (sep : Char) (l r : List Char) (h : sep ∉ l) :
    splitAtFirst sep (l ++ sep :: r) = some (l, r) := by
  induction l with
  | nil => simp [splitAtFirst]
  | cons c cs ih =>
      have hc : c ≠ sep := by
        intro hceq
        exact h (hceq ▸ List.mem_cons_self c cs)
      have hcs : sep ∉ cs := fun hm => h (List.mem_cons_of_mem c hm)
      simp [splitAtFirst, hc, ih hcs]

theorem splitSegs_no_sep (sep : Char) (l : List Char) (h : sep ∉ l) :
    splitSegs sep l = [l] := by
  induction l with
  | nil => simp [splitSegs]
  | cons c cs ih =>
      have hc : c ≠ sep := by
        intro hceq
        exact h (hceq ▸ List.mem_cons_self c cs)
      have hcs : sep ∉ cs := fun hm => h (List.mem_cons_of_mem c hm)
      simp [splitSegs, hc, ih hcs]

theorem splitSegs_ne_nil (sep : Char) : ∀ l : List Char, splitSegs sep l ≠ []
  | [] => by simp [splitSegs]
  | c :: cs => by
      simp only [splitSegs]
      match splitSegs sep cs with
      | [] => simp
      | s :: ss =>
          by_cases hc : c = sep <;> simp [hc]

theorem splitSegs_append (sep : Char) (l r : List Char) (h : sep ∉ l) :
    splitSegs sep (l ++ sep :: r) = l :: splitSegs sep r := by
  induction l with
  | nil =>
      simp only [List.nil_append, splitSegs]
      match hr : splitSegs sep r with
      | [] => exact absurd hr (splitSegs_ne_nil sep r)
      | s :: ss => simp
  | cons c cs ih =>
      have hc : c ≠ sep := by
        intro hceq
        exact h (hceq ▸ List.mem_cons_self c cs)
      have hcs : sep ∉ cs := fun hm => h (List.mem_cons_of_mem c hm)
      simp [splitSegs, hc, ih hcs]

theorem splitAtFirst_cons_ne (sep c : Char) (cs : List Char) (h : c ≠ sep) :
    splitAtFirst sep (c :: cs) = (splitAtFirst sep cs).map (fun q => (c :: q.1, q.2)) := by
  simp only [splitAtFirst, if_neg h]
  cases splitAtFirst sep cs <;> rfl

theorem splitAtFirst_append_not_mem (sep : Char) (l r : List Char) (h : sep ∉ l) :
    splitAtFirst sep (l ++ r) = (splitAtFirst sep r).map (fun q => (l ++ q.1, q.2)) := by
  induction l with
  | nil =>
      rw [List.nil_append]
      cases splitAtFirst sep r <;> simp
  | cons c cs ih =>
      have hc : c ≠ sep := fun hceq => h (hceq ▸ List.mem_cons_self c cs)
      have hcs : sep ∉ cs := fun hm => h (List.mem_cons_of_mem c hm)
      rw [List.cons_append, splitAtFirst_cons_ne sep c (cs ++ r) hc, ih hcs]
      cases splitAtFirst sep r <;> simp

theorem splitAtFirst_self (sep : Char) (r : List Char) :
    splitAtFirst sep (sep :: r) = some ([], r) := by
  simp [splitAtFirst]

/-- Decoding recovers what encoding produced, whenever the mime type and the
(non-empty) filename contain neither the `;` segment separator nor the `,`
payload separator of the data-URI grammar. -/
theorem parse_create_roundtrip (p : List Nat) (m f : String)
    (hp : ∀ b ∈ p, b < 256)
    (hm1 : ';' ∉ m.toList) (hm2 : ',' ∉ m.toList)
    (hf1 : ';' ∉ f.toList) (hf2 : ',' ∉ f.toList) (hf : f ≠ "") :
    parse_data_uri (create_data_uri p m true (some f)) = some (m, some f, p) := by
  have huri : (create_data_uri p m true (some f)).toList =
      "data:".toList ++ (m.toList ++ (';' :: ("name=".toList ++ (f.toList ++
        (';' :: ("base64".toList ++ (',' :: b64EncodeChunks p))))))) := by
    have h1 : (";name=" : String).toList = ';' :: "name=".toList := rfl
    have h2 : (";base64" : String).toList = ';' :: "base64".toList := rfl
    have h3 : ("," : String).toList = [','] := rfl
    have h4 : (base64Encode p).toList = b64EncodeChunks p := rfl
    have h5 : (base64Encode p).data = b64EncodeChunks p := rfl
    simp [create_data_uri, hf, toList_append, h1, h2, h3, h4, h5]
  have dlen : ("data:".toList : List Char).length = 5 := rfl
  unfold parse_data_uri
  rw [huri, List.take_left' dlen, List.drop_left' dlen, if_pos rfl]
  rw [splitAtFirst_append_not_mem ',' m.toList _ hm2,
      splitAtFirst_cons_ne ',' ';' _ (by decide),
      splitAtFirst_append_not_mem ',' _ _ (by decide : ',' ∉ "name=".toList),
      splitAtFirst_append_not_mem ',' f.toList _ hf2,
      splitAtFirst_cons_ne ',' ';' _ (by decide),
      splitAtFirst_append_not_mem ',' _ _ (by decide : ',' ∉ "base64".toList),
      splitAtFirst_self]
  simp only [Option.map_some', List.append_nil]
  rw [splitSegs_append ';' m.toList _ hm1, ← List.append_assoc,
      splitSegs_append ';' ("name=".toList ++ f.toList) _
        (by
          intro hmem
          rcases List.mem_append.mp hmem with h' | h'
          · exact absurd h' (by decide)
          · exact hf1 h'),
      splitSegs_no_sep ';' "base64".toList (by decide)]
  have ht : List.take 5 ("name=".toList ++ f.toList) = "name=".toList :=
    List.take_left' rfl
  have hd : List.drop 5 ("name=".toList ++ f.toList) = f.toList :=
    List.drop_left' rfl
  simp only [parseUriOpts]
  rw [ht, hd, b64_roundtrip p hp]
  simp [mk_toList]

/-! ## Archive-loop and conversion-loop characterizations -/

theorem writeArchiveEntries_eq (directory : String) (files : List SessionAsset)
    (h : ∀ f ∈ files, (parse_data_uri f.data_uri).isSome) :
    writeArchiveEntries directory files =
      .ok ((files.filter
          (fun a => decide (directory = "") || pyStartswith a.name directory)).map
        (fun a => (a.name, uriPayloadBytes (parse_data_uri a.data_uri)))) := by
  induction files with
  | nil => simp [writeArchiveEntries]
  | cons f rest ih =>
      have hf := h f (List.mem_cons_self f rest)
      have hrest : ∀ g ∈ rest, (parse_data_uri g.data_uri).isSome :=
        fun g hg => h g (List.mem_cons_of_mem f hg)
      obtain ⟨v, hv⟩ := Option.isSome_iff_exists.mp hf
      obtain ⟨mv, nv, bv⟩ := v
      by_cases hdir : directory = ""
      · subst hdir
        simp [writeArchiveEntries, hv, ih hrest, uriPayloadBytes, List.filter_cons]
      · by_cases hsw : pyStartswith f.name directory
        · simp [writeArchiveEntries, hdir, hsw, hv, ih hrest, uriPayloadBytes,
            List.filter_cons]
        · simp [writeArchiveEntries, hdir, hsw, ih hrest, List.filter_cons]

theorem conversionLoop_eq (fn : String) :
    ∀ (rs : List (List (List Nat))) (acc : Option String), rs ≠ [] →
      (∀ r ∈ rs, r ≠ []) →
      conversionLoop fn rs acc =
        .ok (some (create_data_uri ((rs.getLastD []).headD [])
          "application/pdf" true (some fn)))
  | [], _, hne, _ => absurd rfl hne
  | [r], acc, _, hfiles => by
      have hr : r ≠ [] := hfiles r (List.mem_cons_self r [])
      obtain ⟨d, ds, rfl⟩ : ∃ d ds, r = d :: ds := by
        cases r with
        | nil => exact absurd rfl hr
        | cons d ds => exact ⟨d, ds, rfl⟩
      simp [conversionLoop]
  | r :: r2 :: rest, acc, _, hfiles => by
      have hr : r ≠ [] := hfiles r (List.mem_cons_self r (r2 :: rest))
      obtain ⟨d, ds, rfl⟩ : ∃ d ds, r = d :: ds := by
        cases r with
        | nil => exact absurd rfl hr
        | cons d ds => exact ⟨d, ds, rfl⟩
      have hrec := conversionLoop_eq fn (r2 :: rest)
        (some (create_data_uri d "application/pdf" true (some fn)))
        (by simp)
        (fun g hg => hfiles g (List.mem_cons_of_mem _ hg))
      rw [show conversionLoop fn ((d :: ds) :: r2 :: rest) acc
            = conversionLoop fn (r2 :: rest)
                (some (create_data_uri d "application/pdf" true (some fn))) from rfl,
          hrec]
      simp [List.getLastD_eq_getLast?, List.getLast?_cons_cons]

/-! ## Claim theorems -/

/-- Claim C1 (amended): a request with both `archive=true` and non-empty
`content`, or with `archive=false` and empty `content`, is not rejected with
`InvalidRequest`: `process` falls through both dispatch branches and completes
normally, performing no side effect (no archive build, no remote call, no
publish, no output written) and raising no error. -/
theorem C1_invalid_combo_silently_ignored (inp : FileOperationsInput) (env : ProcessEnv)
    (h : (inp.content ≠ "" ∧ inp.archive = true) ∨ (inp.content = "" ∧ inp.archive = false)) :
    process inp env = { trace := {}, error := none } := by
  rcases h with ⟨hc, ha⟩ | ⟨hc, ha⟩ <;> simp [process, hc, ha]

/-- Claim C1, witness: the amended theorem applied at the concrete
both-set request. -/
theorem C1_witness : process bothSetInput sampleEnv = { trace := {}, error := none } :=
  C1_invalid_combo_silently_ignored bothSetInput sampleEnv (Or.inl ⟨by decide, rfl⟩)

/-- Claim C1, counterexample to the claim as stated: at a request with both
`content="x"` and `archive=true`, `process` raises no error at all (so it does
not reject with `InvalidRequest`), leaving an empty side-effect trace. -/
theorem C1_counterexample :
    (process bothSetInput sampleEnv).error = none ∧
    (process bothSetInput sampleEnv).trace = {} := ⟨rfl, rfl⟩

/-- Claim C2 (amended): the explicit "No files found" signal is produced
exactly when the session-asset listing is absent or empty; the emptiness check
happens before directory-scope filtering, so with a non-empty listing the
archive of the scope-filtered entries is built and published even when that
filtered set is empty. -/
theorem C2_empty_signal_prefilter (inp : FileOperationsInput) (env : ProcessEnv)
    (hc : inp.content = "") (ha : inp.archive = true) :
    ((env.session_assets = none ∨ env.session_assets = some []) →
      process inp env =
        { trace := { written := [{ directory := pyOr inp.directory "", objref := none,
                                   filename := pyOr inp.filename (env.uuid_supply 0),
                                   archive := true,
                                   text := "No files found to create an archive" }] },
          error := none }) ∧
    (∀ assets entries archive_name, env.session_assets = some assets → assets ≠ [] →
      create_archive assets (pyOr inp.directory "") env.temp_archive_dir =
        .ok (entries, archive_name) →
      (process inp env).trace.published = [.archiveZip entries archive_name]) := by
  constructor
  · intro hsa
    rcases hsa with hsa | hsa <;> simp [process, hc, ha, hsa]
  · intro assets entries archive_name hsa hne harch
    have hlen : assets.length ≠ 0 := by
      intro hz
      exact hne (List.length_eq_zero.mp hz)
    simp [process, hc, ha, hsa, hlen, harch]

/-- Claim C2, witness: with no session assets at all, the no-files output is
written and nothing is published. -/
theorem C2_witness :
    process { content := "", archive := true } sampleEnv =
      { trace := { written := [{ directory := "", objref := none,
                                 filename := "00000000-0000-4000-8000-000000000000",
                                 archive := true,
                                 text := "No files found to create an archive" }] },
        error := none } := by
  have h := (C2_empty_signal_prefilter { content := "", archive := true } sampleEnv
    rfl rfl).1 (Or.inl rfl)
  exact h.trans rfl

/-- Claim C2, counterexample to the claim as stated: one session asset exists
but lies outside the `"docs"` scope, so the included-entry set is empty — yet
a zero-file archive is published and the success message is written, not the
empty signal. -/
theorem C2_counterexample :
    (process scopedArchiveInput scopedAssetsEnv).trace.published =
      [.archiveZip [] "_tmp_tmpabc.zip"] ∧
    (process scopedArchiveInput scopedAssetsEnv).trace.written.map (fun o => o.text) =
      ["Archive created with contents from directory"] :=
  ⟨rfl, rfl⟩

/-- Claim C3 (amended): decoding the base64 encoding of payload `p` with mime
type `m` and filename `f` recovers exactly `(m, f, p)`, provided `m` and `f`
contain neither `;` nor `,` (the data-URI segment separators) and `f` is
non-empty. -/
theorem C3_data_uri_roundtrip (p : List Nat) (m f : String)
    (hp : ∀ b ∈ p, b < 256)
    (hm1 : ';' ∉ m.toList) (hm2 : ',' ∉ m.toList)
    (hf1 : ';' ∉ f.toList) (hf2 : ',' ∉ f.toList) (hf : f ≠ "") :
    parse_data_uri (create_data_uri p m true (some f)) = some (m, some f, p) :=
  parse_create_roundtrip p m f hp hm1 hm2 hf1 hf2 hf

/-- Claim C3, witness: the round trip at the concrete payload `"hi"`,
mime type `text/plain`, filename `a.txt`. -/
theorem C3_witness :
    parse_data_uri (create_data_uri [104, 105] "text/plain" true (some "a.txt")) =
      some ("text/plain", some "a.txt", [104, 105]) :=
  C3_data_uri_roundtrip [104, 105] "text/plain" "a.txt"
    (by decide) (by decide) (by decide) (by decide) (by decide) (by decide)

/-- Claim C3, counterexample to the claim as stated: with the empty filename,
encoding omits the `name` segment (Python truthiness), so decoding returns no
filename and the round trip fails. -/
theorem C3_counterexample :
    parse_data_uri (create_data_uri [104, 105] "text/plain" true (some "")) ≠
      some ("text/plain", some "", [104, 105]) := by decide

/-- Claim C4: the archive build includes exactly the entries whose name starts
with the directory scope (all entries when the scope is empty), silently
excluding the rest, and writes each included entry's decoded bytes at its
relative path; the archive name is the temp directory plus `.zip` with `/`
replaced by `_`. -/
theorem C4_archive_scope_filter (files : List SessionAsset) (directory tmp : String)
    (h : ∀ f ∈ files, (parse_data_uri f.data_uri).isSome) :
    create_archive files directory tmp =
      .ok ((files.filter
          (fun a => decide (directory = "") || pyStartswith a.name directory)).map
        (fun a => (a.name, uriPayloadBytes (parse_data_uri a.data_uri))),
        pyReplaceChar '/' '_' (tmp ++ ".zip")) := by
  simp [create_archive, writeArchiveEntries_eq directory files h]

/-- Claim C4, witness: of two session assets only the one under `docs/` is
archived, with its decoded bytes `"hi"`. -/
theorem C4_witness :
    create_archive archiveDemoFiles "docs" "/tmp/tmpabc" =
      .ok ([("docs/readme.md", [104, 105])], "_tmp_tmpabc.zip") := by
  have h := C4_archive_scope_filter archiveDemoFiles "docs" "/tmp/tmpabc" (by decide)
  exact h.trans rfl

/-- Claim C5 (amended): each loop iteration overwrites the result, so the
published payload is the first byte blob of the LAST response message; every
other blob of the stream (later blobs of a message, and all blobs of earlier
messages) is dropped and does not appear in the published result. -/
theorem C5_last_response_wins (inp : FileOperationsInput) (env : ProcessEnv)
    (hc : inp.content ≠ "") (ha : inp.archive = false)
    (he : inp.export_as = some "pdf")
    (hne : env.conversion_responses ≠ [])
    (hfiles : ∀ r ∈ env.conversion_responses, r ≠ []) :
    (process inp env).trace.published =
      [.uri (create_data_uri ((env.conversion_responses.getLastD []).headD [])
        "application/pdf" true
        (some (pyOr inp.filename (env.uuid_supply 1 ++ ".pdf"))))] := by
  simp [process, hc, ha, he, pyTruthy,
    conversionLoop_eq _ env.conversion_responses none hne hfiles]

/-- Claim C5, witness: with a two-message stream carrying bytes `[1]` then
`[2]`, the published data URI encodes `[2]` (the last message's first blob). -/
theorem C5_witness :
    (process pdfExportInput twoResponseEnv).trace.published =
      [.uri "data:application/pdf;name=out.pdf;base64,Ag=="] := by
  have h := C5_last_response_wins pdfExportInput twoResponseEnv
    (by decide) rfl rfl (by decide) (by decide)
  exact h.trans rfl

/-- Claim C5, counterexample to the claim as stated: with responses
`[[[1]], [[2]]]` the published payload is the encoding of `[2]`, not of the
first response's first blob `[1]` as the claim requires. -/
theorem C5_counterexample :
    (process pdfExportInput twoResponseEnv).trace.published =
      [.uri "data:application/pdf;name=out.pdf;base64,Ag=="] ∧
    ("data:application/pdf;name=out.pdf;base64,Ag==" : String) ≠
      create_data_uri [1] "application/pdf" true (some "out.pdf") :=
  ⟨rfl, by decide⟩

/-- Claim C6 (amended): with non-empty content and a non-empty `export_as`
other than `"pdf"`, `process` raises the unsupported-export error with an
empty side-effect trace: no conversion request is sent, nothing is published,
nothing is written.  (An empty-string `export_as` is Python-falsy and instead
takes the direct-encode path.) -/
theorem C6_unsupported_export_fails_fast (inp : FileOperationsInput) (env : ProcessEnv)
    (ea : String) (hc : inp.content ≠ "") (ha : inp.archive = false)
    (he : inp.export_as = some ea) (hpdf : ea ≠ "pdf") (hemp : ea ≠ "") :
    process inp env = { trace := {}, error := some .unsupportedExportAs } := by
  simp [process, hc, ha, he, pyTruthy, hemp, hpdf]

/-- Claim C6, witness: `export_as="docx"` fails fast with an empty trace. -/
theorem C6_witness :
    process docxExportInput sampleEnv =
      { trace := {}, error := some .unsupportedExportAs } :=
  C6_unsupported_export_fails_fast docxExportInput sampleEnv "docx"
    (by decide) rfl rfl (by decide) (by decide)

/-- Claim C6, counterexample to the claim as stated: `export_as=""` is a value
other than PDF, yet processing does not fail — it takes the direct-encode path
and publishes an asset. -/
theorem C6_counterexample :
    (process emptyExportAsInput sampleEnv).error = none ∧
    (process emptyExportAsInput sampleEnv).trace.published ≠ [] := by
  constructor
  · rfl
  · intro hx
    simp [process, emptyExportAsInput, sampleEnv, pyTruthy] at hx

/-- Claim C7 (code bug evaluated at the failing input): a request with content
`"hi"` and neither `filename` nor `mimetype` publishes a data URI whose mime
field is the literal text `None` (Python's f-string rendering of the unset
`Optional[str]`), not the `application/octet-stream` default the spec states;
no error is raised. -/
theorem C7_none_mimetype_published :
    (runFileOperations bareContentInput sampleEnv).trace.published =
      [.uri "data:None;name=00000000-0000-4000-8000-000000000000;base64,aGk="] ∧
    (runFileOperations bareContentInput sampleEnv).error = none :=
  ⟨rfl, rfl⟩

/-- Claim C8 (amended): the encoder produces exactly
`data:{mime}[;name={filename}][;base64],{payload}` where the `name` segment
appears iff a NON-EMPTY filename is given, the `base64` segment appears iff
the flag is true (after `name` when both appear), and the payload after the
comma is the base64 text iff the flag is true, else Python's string rendering
of the bytes payload (its `b'...'` repr). -/
theorem C8_data_uri_format (data : List Nat) (m : String) (b64 : Bool)
    (f : Option String) :
    create_data_uri data m b64 f =
      "data:" ++ m ++
        (match f with
         | some s => if s = "" then "" else ";name=" ++ s
         | none => "") ++
        (if b64 then ";base64" else "") ++ "," ++
        (if b64 then base64Encode data else pyBytesRepr data) := by
  cases f with
  | none => cases b64 <;> simp [create_data_uri, String.append_assoc]
  | some s =>
      by_cases hs : s = "" <;> cases b64 <;>
        simp [create_data_uri, hs, String.append_assoc]

/-- Claim C8, counterexample to the claim as stated: a filename IS given (the
empty string) yet the `name` segment is absent, because the source tests
Python truthiness, not presence. -/
theorem C8_counterexample :
    create_data_uri [104, 105] "text/plain" true (some "") =
      "data:text/plain;base64,aGk=" ∧
    ("data:text/plain;base64,aGk=" : String) ≠ "data:text/plain;name=;base64,aGk=" :=
  ⟨rfl, by decide⟩

/-- Claim C9 (amended): when no mime type is supplied and a filename is, the
validator applies the nine-entry table to `filename.split(".")[-1]` — the last
dot-separated component, which is the WHOLE filename when it contains no dot —
falling back to `application/octet-stream` for components outside the table. -/
theorem C9_mime_inference_table (inp : FileOperationsInput) (f : String)
    (hm : pyTruthy inp.mimetype = false) (hf : inp.filename = some f) (hne : f ≠ "") :
    (validate_input inp).mimetype =
      some (let ext := pySplitLast '.' f
            if ext = "txt" then "text/plain"
            else if ext = "html" then "text/html"
            else if ext = "css" then "text/css"
            else if ext = "js" then "application/javascript"
            else if ext = "json" then "application/json"
            else if ext = "xml" then "application/xml"
            else if ext = "csv" then "text/csv"
            else if ext = "tsv" then "text/tab-separated-values"
            else if ext = "md" then "text/markdown"
            else "application/octet-stream") := by
  simp [validate_input, hm, hf, hne, mime_type_from_file_ext]

/-- Claim C9, witness: `report.csv` infers `text/csv`. -/
theorem C9_witness :
    (validate_input { filename := some "report.csv" }).mimetype = some "text/csv" := by
  have h := C9_mime_inference_table { filename := some "report.csv" } "report.csv"
    rfl rfl (by decide)
  simpa using h

/-- Claim C9, counterexample to the claim as stated: the extensionless
filename `md` infers `text/markdown`, not `application/octet-stream`, because
`split(".")[-1]` of a dotless name is the name itself. -/
theorem C9_counterexample :
    (validate_input { filename := some "md" }).mimetype = some "text/markdown" ∧
    (some "text/markdown" : Option String) ≠ some "application/octet-stream" :=
  ⟨rfl, by decide⟩

/-- Claim C10: in a PDF export with no filename supplied, the conversion
request and the published data URI carry one freshly generated UUID with
`.pdf` appended, while the returned output's `filename` field is a separately
generated bare UUID; the two strings always differ (their lengths differ), so
the returned filename never names the published object. -/
theorem C10_distinct_generated_filenames (inp : FileOperationsInput) (env : ProcessEnv)
    (hfn : inp.filename = none) (hc : inp.content ≠ "") (ha : inp.archive = false)
    (he : inp.export_as = some "pdf")
    (hne : env.conversion_responses ≠ [])
    (hfiles : ∀ r ∈ env.conversion_responses, r ≠ [])
    (hu0 : (env.uuid_supply 0).length = 36) (hu1 : (env.uuid_supply 1).length = 36) :
    (process inp env).trace.conversion_requests =
      [{ filename := env.uuid_supply 1 ++ ".pdf", html := inp.content }] ∧
    (process inp env).trace.published =
      [.uri (create_data_uri ((env.conversion_responses.getLastD []).headD [])
        "application/pdf" true (some (env.uuid_supply 1 ++ ".pdf")))] ∧
    (process inp env).trace.written.map (fun o => o.filename) = [env.uuid_supply 0] ∧
    env.uuid_supply 1 ++ ".pdf" ≠ env.uuid_supply 0 := by
  have hdiff : env.uuid_supply 1 ++ ".pdf" ≠ env.uuid_supply 0 := by
    intro heq
    have hlen := congrArg String.length heq
    rw [String.length_append] at hlen
    rw [hu0, hu1, show (".pdf" : String).length = 4 from rfl] at hlen
    omega
  refine ⟨?_, ?_, ?_, hdiff⟩ <;>
    simp [process, hfn, hc, ha, he, pyTruthy, pyOr,
      conversionLoop_eq _ env.conversion_responses none hne hfiles]

/-- Claim C10, witness: at a concrete no-filename PDF request the conversion
request carries the UUID with `.pdf`, which differs from the bare UUID the
output returns. -/
theorem C10_witness :
    (process pdfNoNameInput oneResponseEnv).trace.conversion_requests =
      [{ filename := "00000000-0000-4000-8000-000000000000.pdf", html := "<p>x</p>" }] ∧
    ("00000000-0000-4000-8000-000000000000.pdf" : String) ≠
      "00000000-0000-4000-8000-000000000000" := by
  have h := C10_distinct_generated_filenames pdfNoNameInput oneResponseEnv
    rfl (by decide) rfl rfl (by decide) (by decide) rfl rfl
  exact ⟨h.1.trans rfl, by decide⟩

end FileOps
